import Mathlib

/-!
Shallow embedding of the Mission Board conversation-logging system:
the Supabase schema (conversations / conversation_messages tables), the
Express REST handlers embedded in the backend deployment document, the
WebSocket broadcast bridge, and the Logger Client (logger.js and the
agent-logger integration helper).  Timestamps are modelled as naturals,
identifiers as naturals, JSON metadata as opaque strings.
-/

namespace MissionBoard

/-- A row of the `conversations` table.  `title` and the agent columns are
nullable; `participants` is a `TEXT[]` array; `status` defaults to
`"active"`; `title` has no SQL default, so its default value is NULL. -/
structure Conversation where
  id : Nat
  session_id : Option String
  initiator_agent : Option String
  participants : List String
  status : String
  title : Option String
  metadata : String
  created_at : Nat
  updated_at : Nat
deriving Repr, DecidableEq

/-- A row of the `conversation_messages` table.  There is no stored
`total_tokens` field in the embedding: the SQL column is
`GENERATED ALWAYS AS (input_tokens + output_tokens) STORED`, i.e. it is a
derived value, which we model as the function `Message.total_tokens`. -/
structure Message where
  id : Nat
  conversation_id : Nat
  agent_name : Option String
  role : String
  content : String
  input_tokens : Nat
  output_tokens : Nat
  model : Option String
  metadata : String
  created_at : Nat
deriving Repr, DecidableEq

/-- `total_tokens INTEGER GENERATED ALWAYS AS (input_tokens + output_tokens)
STORED` — the total is computed from its inputs at every read and is not
independently settable. -/
def Message.total_tokens (m : Message) : Nat :=
  m.input_tokens + m.output_tokens

/-- The backing store: the two primary tables, a fresh-id counter standing
for `uuid_generate_v4()`, and the current clock value standing for `NOW()`. -/
structure Store where
  conversations : List Conversation
  messages : List Message
  nextId : Nat
  now : Nat
deriving Repr, DecidableEq

/-! ### POST /api/conversations

The handler destructures `{ initiator_agent, participants, session_id,
metadata = {} }` from the request body — `title` is not read — and inserts
`{ initiator_agent, participants: participants || [initiator_agent],
session_id, metadata }`.  Unset columns take their SQL defaults:
`status = 'active'`, `title = NULL`, both timestamps `NOW()`. -/

/-- The JSON body the create-conversation endpoint receives.  The Logger
Client always includes a `title` field, so the body carries one; the
handler ignores it. -/
structure CreateConversationBody where
  initiator_agent : String
  participants : Option (List String)
  session_id : Option String
  title : Option String
  metadata : String
deriving Repr, DecidableEq

/-- The `POST /api/conversations` handler: insert a row built from the
destructured fields and return it with status 201.  `participants ||
[initiator_agent]` only fires when the field is absent (`none`). -/
def postConversations (s : Store) (body : CreateConversationBody) :
    Store × Conversation :=
  let row : Conversation :=
    { id := s.nextId
      session_id := body.session_id
      initiator_agent := some body.initiator_agent
      participants := body.participants.getD [body.initiator_agent]
      status := "active"
      title := none
      metadata := body.metadata
      created_at := s.now
      updated_at := s.now }
  ({ s with conversations := s.conversations ++ [row], nextId := s.nextId + 1 },
   row)

/-! ### Logger Client: `ConversationLogger.startConversation`

`const allParticipants = [...new Set([this.initiator, ...participants])]`
— a JS `Set` built from a list keeps the first occurrence of each element
in insertion order. -/

/-- Elements already seen are skipped; a new element is kept and
recorded.  This is how a JS `Set` accumulates its insertion order. -/
def jsSetDedupAux (seen : List String) : List String → List String
  | [] => []
  | x :: xs =>
    if seen.contains x then jsSetDedupAux seen xs
    else x :: jsSetDedupAux (x :: seen) xs

/-- JS `[...new Set(l)]`: keep the first occurrence of each element. -/
def jsSetDedup (l : List String) : List String :=
  jsSetDedupAux [] l

/-- JS `x || y` on an optional string: `undefined` and the empty string
are falsy. -/
def jsOrStr (x : Option String) (y : String) : String :=
  match x with
  | none => y
  | some s => if s.length = 0 then y else s

/-- The body `startConversation` serialises: initiator unioned into the
participants client-side, and a `title` of
`` title || `initiator → p1, p2, ...` `` — an absent or empty title
falls back to the default. -/
def startConversationBody (initiator : String) (participants : List String)
    (sessionId : Option String) (title : Option String) (metadata : String) :
    CreateConversationBody :=
  { initiator_agent := initiator
    participants := some (jsSetDedup (initiator :: participants))
    session_id := sessionId
    title := some (jsOrStr title
      (initiator ++ " → " ++ String.intercalate ", " participants))
    metadata := metadata }

/-- `startConversation` posts the body it built to `/api/conversations`. -/
def startConversation (s : Store) (initiator : String)
    (participants : List String) (sessionId : Option String)
    (title : Option String) (metadata : String) : Store × Conversation :=
  postConversations s
    (startConversationBody initiator participants sessionId title metadata)

/-! ### POST /api/conversations/:id/messages

The handler performs no existence check of its own: it inserts directly
into `conversation_messages`.  The column `conversation_id UUID NOT NULL
REFERENCES conversations(id)` makes the database reject the insert when
the conversation does not exist; the handler's `if (error) throw error`
then lands in the catch block, which answers
`res.status(500).json({ error })`.  On success the handler afterwards
updates the conversation's `updated_at` to `NOW()` and answers 201 with
the inserted row.  The handler destructures `agent_name, role, content,
input_tokens, output_tokens, metadata` — not `model` — so the stored
row's `model` column stays NULL. -/

/-- The JSON body of the append-message endpoint.  `input_tokens` and
`output_tokens` default to 0 when absent.  The Logger Client sends a
`model` field, but the handler never destructures it, so it carries no
effect. -/
structure AppendMessageBody where
  agent_name : Option String
  role : String
  content : String
  input_tokens : Nat := 0
  output_tokens : Nat := 0
  model : Option String
  metadata : String
deriving Repr, DecidableEq

/-- Outcome of the append-message handler: HTTP status, the JSON answer
(the inserted row on success), and the store after the call. -/
structure AppendResult where
  status : Nat
  message : Option Message
  store : Store
deriving Repr, DecidableEq

/-- Whether a conversation row with the given id exists (the foreign-key
check the database performs on insert into `conversation_messages`). -/
def conversationExists (s : Store) (cid : Nat) : Bool :=
  s.conversations.any (fun c => c.id = cid)

/-- The `POST /api/conversations/:id/messages` handler. -/
def postMessage (s : Store) (cid : Nat) (body : AppendMessageBody) :
    AppendResult :=
  if conversationExists s cid then
    let m : Message :=
      { id := s.nextId
        conversation_id := cid
        agent_name := body.agent_name
        role := body.role
        content := body.content
        input_tokens := body.input_tokens
        output_tokens := body.output_tokens
        model := none
        metadata := body.metadata
        created_at := s.now }
    let s1 := { s with messages := s.messages ++ [m], nextId := s.nextId + 1 }
    let touched := s1.conversations.map
      (fun c => if c.id = cid then { c with updated_at := s.now } else c)
    let s2 := { s1 with conversations := touched }
    { status := 201, message := some m, store := s2 }
  else
    { status := 500, message := none, store := s }

/-! ### GET /api/conversations

`select('*, messages:conversation_messages(count)')` with
`.order('created_at', { ascending: false })`: every conversation together
with its message count, ordered by creation timestamp descending. -/

/-- Number of messages belonging to a conversation. -/
def messageCount (s : Store) (cid : Nat) : Nat :=
  (s.messages.filter (fun m => m.conversation_id = cid)).length

/-- The order `.order('created_at', { ascending: false })` sorts by. -/
def createdDesc (a b : Conversation) : Prop :=
  b.created_at ≤ a.created_at

instance : DecidableRel createdDesc := fun a b =>
  inferInstanceAs (Decidable (b.created_at ≤ a.created_at))

instance : IsTotal Conversation createdDesc :=
  ⟨fun a b => (Nat.le_total b.created_at a.created_at).imp id id⟩

instance : IsTrans Conversation createdDesc :=
  ⟨fun _ _ _ hab hbc => Nat.le_trans hbc hab⟩

/-- The ordering the claim expects: newest first by `updated_at`. -/
def updatedDesc (a b : Conversation) : Prop :=
  b.updated_at ≤ a.updated_at

instance : DecidableRel updatedDesc := fun a b =>
  inferInstanceAs (Decidable (b.updated_at ≤ a.updated_at))

/-- The `GET /api/conversations` handler: rows sorted by `created_at`
descending, each paired with its message count. -/
def getConversations (s : Store) : List (Conversation × Nat) :=
  (List.insertionSort createdDesc s.conversations).map
    (fun c => (c, messageCount s c.id))

/-! ### DELETE /api/conversations/delete-range

`if (!from || !to) return res.status(400)`.  With both bounds present
the handler runs
`.delete().gte('created_at', from).lte('created_at', to).select('count')`.
`count` is not a column of `conversations`, and a bare `count` in a
PostgREST select list is special-cased only inside embedded-resource
parentheses (the `conversation_messages(count)` pattern the listing
endpoints use), so the request is rejected with an undefined-column
error; the mutation and its returned representation execute as one
data-modifying CTE, so nothing is deleted.  `if (error) throw error`
lands in the catch block, which answers 500.  The success path — status
200 with `deletedCount: data?.length || 0` — is unreachable. -/

/-- Outcome of the delete-range handler. -/
structure DeleteRangeResult where
  status : Nat
  deletedCount : Option Nat
  store : Store
deriving Repr, DecidableEq

/-- `from <= created_at <= to`, both comparisons inclusive
(`gte` / `lte`): the rows the handler's query targets and would delete,
were its select list valid. -/
def inRange (f t : Nat) (c : Conversation) : Bool :=
  f ≤ c.created_at && c.created_at ≤ t

/-- The `DELETE /api/conversations/delete-range` handler. -/
def deleteRange (s : Store) (fromQ toQ : Option Nat) : DeleteRangeResult :=
  match fromQ, toQ with
  | some _, some _ =>
    { status := 500, deletedCount := none, store := s }
  | _, _ => { status := 400, deletedCount := none, store := s }

/-! ### Change Notification Bridge

The backend keeps `const clients = new Set()` of WebSocket connections;
the `'close'` event handler runs `clients.delete(ws)`.  The single
Supabase channel subscription, on each `INSERT` into
`conversation_messages`, runs
`clients.forEach(c => if (c.readyState === OPEN) c.send(envelope))`.
The handler passes no send-callback and contains no error handling: a
write that fails at the socket leaves the set and the handler's view of
the connection untouched (ws reports such errors asynchronously through
the socket's own events). -/

/-- `WebSocket.readyState` values. -/
inductive WsReadyState where
  | CONNECTING
  | OPEN
  | CLOSING
  | CLOSED
deriving Repr, DecidableEq

/-- One observer connection: identity, `readyState`, whether the
underlying socket currently accepts writes, and the frames delivered so
far. -/
structure WsClient where
  id : Nat
  readyState : WsReadyState
  sendOk : Bool
  sent : List String
deriving Repr, DecidableEq

/-- `ws.send(frame)`: delivered on a healthy socket; on a broken socket
the write fails and, with no callback installed, nothing in the caller
reacts — the client record is unchanged. -/
def WsClient.send (c : WsClient) (frame : String) : WsClient :=
  if c.sendOk then { c with sent := c.sent ++ [frame] } else c

/-- `JSON.stringify({ type: 'new_message', data: payload.new })`. -/
def envelope (payload : String) : String :=
  "\x7b\"type\":\"new_message\",\"data\":" ++ payload ++ "\x7d"

/-- The `postgres_changes` INSERT callback: write the envelope to every
client whose `readyState` is `OPEN`. -/
def broadcastNewMessage (clients : List WsClient) (payload : String) :
    List WsClient :=
  clients.map (fun c =>
    if c.readyState = WsReadyState.OPEN then c.send (envelope payload) else c)

/-- The `'close'` event handler: `clients.delete(ws)`. -/
def onClose (clients : List WsClient) (wsId : Nat) : List WsClient :=
  clients.filter (fun c => c.id ≠ wsId)

/-! ### Logger Client: `ConversationLogger.logMessage`

The whole body sits in a try/catch.  `fetch` rejecting, or
`!response.ok`, raises inside the try; the catch logs
`[MissionBoard] Error logging message:` to the console and deliberately
does not rethrow, so the call always returns normally (with the parsed
row on success, `undefined` otherwise).  A missing `conversationId`
short-circuits with a console warning before any network call. -/

/-- What the network round-trip of `logMessage` can produce. -/
inductive Transport where
  | success (row : Message)
  | httpErr (body : String)
  | netErr (msg : String)
deriving Repr, DecidableEq

/-- The code inside the try block: a rejected fetch or a non-ok response
raises (`Except.error`); an ok response yields the inserted row. -/
def logMessageAttempt : Transport → Except String Message
  | .success row => .ok row
  | .httpErr body => .error ("Failed to log message: " ++ body)
  | .netErr msg => .error msg

/-- `logMessage` as observed by the caller: the `Except` layer is what
may propagate to the caller, the `List String` is the console (diagnostic
channel).  The catch block converts every raised error into a console
report and a normal return. -/
def logMessage (conversationId : Option Nat) (t : Transport) :
    Except String (Option Message) × List String :=
  match conversationId with
  | none =>
    (.ok none,
     ["[MissionBoard] No active conversation. Call startConversation() first."])
  | some _ =>
    match logMessageAttempt t with
    | .ok row => (.ok (some row), ["[MissionBoard] Logged message: ok"])
    | .error e => (.ok none, ["[MissionBoard] Error logging message: " ++ e])

/-! ### agent-logger helper: token estimation and its fallback

`estimateTokens`: `if (!text) return 0; return Math.ceil(text.length/4)`.
`spawnWithLogging` chooses
`result?.usage?.output_tokens || estimateTokens(responseContent)` — the
JS `||` falls through when the left operand is absent OR zero. -/

/-- `estimateTokens` from agent-logger: 1 token per 4 characters,
rounded up, 0 for an empty (falsy) text. -/
def estimateTokens (text : String) : Nat :=
  if text.length = 0 then 0 else (text.length + 3) / 4

/-- JS `x || y` on an optional number: `undefined` and `0` are falsy. -/
def jsOr (x : Option Nat) (y : Nat) : Nat :=
  match x with
  | none => y
  | some 0 => y
  | some n => n

/-- The output-token count `spawnWithLogging` logs for the response:
`result?.usage?.output_tokens || estimateTokens(responseContent)`. -/
def responseOutputTokens (usageOutput : Option Nat) (content : String) : Nat :=
  jsOr usageOutput (estimateTokens content)

/-! ### agent-logger helper: the session deduplication cache

`getOrCreateLogger(initiator, participant, sessionKey)` keys the global
`activeConversations` map by the string
`` `${initiator}:${participant}:${sessionKey}` `` and reuses the cached
`ConversationLogger` when the key is present. -/

/-- The cache key `` `${initiator}:${participant}:${sessionKey}` ``. -/
def cacheKey (initiator participant sessionKey : String) : String :=
  initiator ++ ":" ++ participant ++ ":" ++ sessionKey

/-- The `activeConversations` map (association list of key ↦ logger id)
plus a counter allocating fresh `ConversationLogger` identities. -/
structure LoggerCache where
  entries : List (String × Nat)
  nextLogger : Nat
deriving Repr, DecidableEq

/-- `getOrCreateLogger`: return the cached logger when the key is
present, else construct a fresh logger and cache it under the key. -/
def getOrCreateLogger (st : LoggerCache)
    (initiator participant sessionKey : String) : Nat × LoggerCache :=
  let key := cacheKey initiator participant sessionKey
  match st.entries.find? (fun e => e.1 = key) with
  | some e => (e.2, st)
  | none =>
    (st.nextLogger,
     { entries := st.entries ++ [(key, st.nextLogger)]
       nextLogger := st.nextLogger + 1 })

/-! ## Concrete fixtures used by counterexamples and witnesses -/

/-- A store with no rows at all. -/
def emptyStore : Store :=
  { conversations := [], messages := [], nextId := 0, now := 100 }

/-- A create-conversation body whose participants list does not contain
the initiator. -/
def nexarRioBody : CreateConversationBody :=
  { initiator_agent := "nexar", participants := some ["rio"],
    session_id := some "sess-1", title := some "Planning", metadata := "" }

/-- One seed conversation row, id 0. -/
def seedConversation : Conversation :=
  { id := 0, session_id := some "sess-1", initiator_agent := some "nexar",
    participants := ["nexar", "rio"], status := "active", title := none,
    metadata := "", created_at := 1, updated_at := 1 }

/-- A store holding the one seed conversation. -/
def seedStore : Store :=
  { conversations := [seedConversation], messages := [], nextId := 1, now := 2 }

/-- An append-message body with explicit token counts. -/
def appendBody : AppendMessageBody :=
  { agent_name := some "rio", role := "assistant", content := "done",
    input_tokens := 40, output_tokens := 90, model := some "gpt-4",
    metadata := "" }

/-- A conversation created inside the purge interval `[10, 20]`. -/
def insideRangeConv : Conversation :=
  { id := 4, session_id := none, initiator_agent := some "juno",
    participants := ["juno"], status := "active", title := none,
    metadata := "", created_at := 15, updated_at := 15 }

/-- A conversation created outside the purge interval `[10, 20]`. -/
def outsideRangeConv : Conversation :=
  { id := 5, session_id := none, initiator_agent := some "orion",
    participants := ["orion"], status := "active", title := none,
    metadata := "", created_at := 30, updated_at := 30 }

/-- A store with one conversation inside and one outside `[10, 20]`. -/
def purgeStore : Store :=
  { conversations := [insideRangeConv, outsideRangeConv], messages := [],
    nextId := 6, now := 40 }

/-- An observer whose socket is `OPEN` but rejects writes. -/
def failingClient : WsClient :=
  { id := 0, readyState := .OPEN, sendOk := false, sent := [] }

/-- A healthy `OPEN` observer. -/
def okClient : WsClient :=
  { id := 1, readyState := .OPEN, sendOk := true, sent := [] }

/-- Created first (timestamp 1) but updated last (timestamp 10). -/
def lateUpdated : Conversation :=
  { id := 1, session_id := none, initiator_agent := some "nexar",
    participants := ["nexar"], status := "active", title := none,
    metadata := "", created_at := 1, updated_at := 10 }

/-- Created second (timestamp 2) but updated earlier (timestamp 5). -/
def earlyUpdated : Conversation :=
  { id := 2, session_id := none, initiator_agent := some "rio",
    participants := ["rio"], status := "active", title := none,
    metadata := "", created_at := 2, updated_at := 5 }

/-- A store where creation order and update order disagree. -/
def twoConvStore : Store :=
  { conversations := [lateUpdated, earlyUpdated], messages := [],
    nextId := 3, now := 20 }

/-- The `activeConversations` map before any call. -/
def emptyCache : LoggerCache := { entries := [], nextLogger := 0 }

/-! ## Claims -/

/-- Claim C1, counterexample: a `POST /api/conversations` request with
initiator `nexar` and participants `["rio"]` produces and returns a row
whose participant set does not contain the initiator — the server stores
the supplied list verbatim, performing no set union with the initiator. -/
theorem postConversations_drops_initiator :
    ¬ ("nexar" ∈ (postConversations emptyStore nexarRioBody).2.participants) := by
  decide

/-- Claim C1, amended: the fold of the initiator into the participant set
happens in the Logger Client (`startConversation` builds
`[...new Set([initiator, ...participants])]`), not in the server handler;
a conversation opened through `startConversation` therefore has the
initiator in its participant set, while the server itself stores whatever
participants list the body carries, falling back to `[initiator_agent]`
only when the field is absent. -/
theorem startConversation_folds_initiator (s : Store) (initiator : String)
    (parts : List String) (sess titl : Option String) (meta : String) :
    initiator ∈
      ((startConversation s initiator parts sess titl meta).2).participants ∧
    ∀ body : CreateConversationBody,
      (postConversations s body).2.participants =
        body.participants.getD [body.initiator_agent] := by
  constructor
  · simp [startConversation, startConversationBody, postConversations,
      jsSetDedup, jsSetDedupAux]
  · intro body; rfl

/-- Claim C2: a message appended to an existing conversation is stored
and returned with total-token count exactly `inputTokens + outputTokens`,
and every message readable from the store satisfies the same equation at
any time, because `total_tokens` is a generated column, never
independently settable. -/
theorem postMessage_total_tokens (s : Store) (cid : Nat)
    (body : AppendMessageBody) (h : conversationExists s cid = true) :
    ∃ m : Message,
      (postMessage s cid body).message = some m ∧
      m.total_tokens = body.input_tokens + body.output_tokens ∧
      m ∈ (postMessage s cid body).store.messages ∧
      ∀ m' ∈ (postMessage s cid body).store.messages,
        m'.total_tokens = m'.input_tokens + m'.output_tokens := by
  unfold postMessage
  rw [if_pos h]
  exact ⟨_, rfl, rfl, by simp, fun m' _ => rfl⟩

/-- Claim C2, witness: appending `40 + 90` tokens to the seed
conversation yields a message with total 130. -/
theorem postMessage_total_tokens_witness :
    conversationExists seedStore 0 = true ∧
    ∃ m : Message,
      (postMessage seedStore 0 appendBody).message = some m ∧
      m.total_tokens = appendBody.input_tokens + appendBody.output_tokens ∧
      m ∈ (postMessage seedStore 0 appendBody).store.messages ∧
      ∀ m' ∈ (postMessage seedStore 0 appendBody).store.messages,
        m'.total_tokens = m'.input_tokens + m'.output_tokens :=
  ⟨by decide, postMessage_total_tokens seedStore 0 appendBody (by decide)⟩

/-- Claim C3, counterexample: appending to a conversation id that does
not exist yields HTTP 500 — a server error, not a NotFound client error —
because the handler performs no existence check and merely catches the
foreign-key violation raised by the insert.  No message row is created. -/
theorem postMessage_unknown_conversation_server_error :
    (postMessage emptyStore 5 appendBody).status = 500 ∧
    (postMessage emptyStore 5 appendBody).message = none ∧
    (postMessage emptyStore 5 appendBody).store = emptyStore ∧
    ¬ ((postMessage emptyStore 5 appendBody).status < 500) := by
  decide

/-- Claim C3, amended: when the conversation does not exist the insert is
rejected by the foreign-key constraint (there is no validation step in
the handler), no message row is created, and the failure is surfaced as a
500 server error rather than a NotFound client error. -/
theorem postMessage_unknown_conversation_no_insert (s : Store) (cid : Nat)
    (body : AppendMessageBody) (h : conversationExists s cid = false) :
    (postMessage s cid body).status = 500 ∧
    (postMessage s cid body).message = none ∧
    (postMessage s cid body).store = s := by
  unfold postMessage
  rw [if_neg (by simp [h])]
  exact ⟨rfl, rfl, rfl⟩

/-- Claim C3, amended, witness: appending to id 5 of the empty store. -/
theorem postMessage_unknown_conversation_no_insert_witness :
    conversationExists emptyStore 5 = false ∧
    (postMessage emptyStore 5 appendBody).status = 500 ∧
    (postMessage emptyStore 5 appendBody).message = none ∧
    (postMessage emptyStore 5 appendBody).store = emptyStore :=
  ⟨by decide,
   postMessage_unknown_conversation_no_insert emptyStore 5 appendBody (by decide)⟩

/-- Claim C4, the code evaluated at the failing input: both bounds
supplied (`from = 10`, `to = 20`) and a conversation created at 15 in
the store.  The handler's `.delete().select('count')` references a
nonexistent column, so the request errors and the catch block answers
500: no count is reported and the in-range conversation survives —
the delete-and-return-count behaviour the claim (and the handler's own
`Deleted N conversation(s)` response template) describes is never
reached.  Only the missing-bound validation answers 400 as specified. -/
theorem deleteRange_broken_at_failing_input :
    (deleteRange purgeStore (some 10) (some 20)).status = 500 ∧
    (deleteRange purgeStore (some 10) (some 20)).deletedCount = none ∧
    (deleteRange purgeStore (some 10) (some 20)).store = purgeStore ∧
    insideRangeConv ∈
      (deleteRange purgeStore (some 10) (some 20)).store.conversations ∧
    inRange 10 20 insideRangeConv = true ∧
    deleteRange purgeStore none (some 20) =
      { status := 400, deletedCount := none, store := purgeStore } := by
  decide

/-- Claim C5, counterexample: an `OPEN` channel whose write fails is
neither transitioned to `CLOSED` nor removed from the registry by the
broadcast — the insert handler has no write-failure handling, so the
registry after the broadcast still contains the unchanged channel. -/
theorem broadcast_keeps_failed_channel :
    broadcastNewMessage [failingClient] "msg" = [failingClient] ∧
    failingClient ∈ broadcastNewMessage [failingClient] "msg" ∧
    failingClient.readyState = WsReadyState.OPEN := by
  decide

/-- Claim C5, amended: on each insertion event the envelope is written to
every channel currently in `OPEN` state, and a write failure on one
channel does not affect delivery to any other channel (the outcome at
position `i` depends only on the channel at position `i`); but a channel
whose write fails stays in the registry unchanged — it is removed only
when its own close event later fires, not by the broadcast. -/
theorem broadcast_isolated_delivery (clients : List WsClient)
    (payload : String) (i : Nat) (c : WsClient)
    (hc : clients[i]? = some c) :
    (broadcastNewMessage clients payload).map WsClient.id =
      clients.map WsClient.id ∧
    (c.readyState = WsReadyState.OPEN → c.sendOk = true →
      (broadcastNewMessage clients payload)[i]? =
        some { c with sent := c.sent ++ [envelope payload] }) ∧
    (c.sendOk = false →
      (broadcastNewMessage clients payload)[i]? = some c) := by
  have hid : ∀ d : WsClient,
      (if d.readyState = WsReadyState.OPEN
        then d.send (envelope payload) else d).id = d.id := by
    intro d
    by_cases h : d.readyState = WsReadyState.OPEN
    · simp only [h, if_true, WsClient.send]
      split <;> rfl
    · simp [h]
  refine ⟨?_, ?_, ?_⟩
  · simp only [broadcastNewMessage, List.map_map]
    exact List.map_congr_left (fun d _ => hid d)
  · intro hOpen hOk
    simp only [broadcastNewMessage, List.getElem?_map, hc, Option.map_some']
    simp [hOpen, WsClient.send, hOk]
  · intro hFail
    simp only [broadcastNewMessage, List.getElem?_map, hc, Option.map_some']
    by_cases h : c.readyState = WsReadyState.OPEN <;>
      simp [h, WsClient.send, hFail]

/-- Claim C5, amended, witness: with a failing channel at position 0 and
a healthy open channel at position 1, the healthy channel still receives
the envelope. -/
theorem broadcast_isolated_delivery_witness :
    (broadcastNewMessage [failingClient, okClient] "p")[1]? =
      some { okClient with sent := [envelope "p"] } := by
  have h := (broadcast_isolated_delivery [failingClient, okClient] "p" 1
    okClient (by decide)).2.1 rfl rfl
  simpa [okClient] using h

/-- Claim C6, counterexample: the listing endpoint orders by `created_at`
descending, not by `updated_at`: in a store where conversation 1 was
created first but updated last, the endpoint returns conversation 2
first, an order that is not descending in `updated_at`. -/
theorem getConversations_not_sorted_by_updated :
    ((getConversations twoConvStore).map (fun p => p.1.id)) = [2, 1] ∧
    ((getConversations twoConvStore).map (fun p => p.1.updated_at)) = [5, 10] ∧
    ¬ List.Pairwise updatedDesc ((getConversations twoConvStore).map Prod.fst) := by
  decide

/-- Claim C6, amended: `GET /api/conversations` returns every
conversation exactly once, each with its message count, sorted newest
first by creation timestamp (`created_at` descending), not by
`updated_at`. -/
theorem getConversations_sorted_by_created (s : Store) :
    List.Sorted createdDesc ((getConversations s).map Prod.fst) ∧
    ((getConversations s).map Prod.fst).Perm s.conversations ∧
    ∀ p ∈ getConversations s, p.2 = messageCount s p.1.id := by
  have hfst : (getConversations s).map Prod.fst =
      List.insertionSort createdDesc s.conversations := by
    simp only [getConversations, List.map_map]
    rw [show (Prod.fst ∘ fun c : Conversation => (c, messageCount s c.id)) = id
      from rfl, List.map_id]
  refine ⟨?_, ?_, ?_⟩
  · rw [hfst]; exact List.sorted_insertionSort createdDesc s.conversations
  · rw [hfst]; exact List.perm_insertionSort createdDesc s.conversations
  · intro p hp
    obtain ⟨c, _, rfl⟩ := List.mem_map.mp hp
    rfl

/-- Claim C6, amended, witness: the listing of the two-conversation store
is sorted by `created_at` descending. -/
theorem getConversations_sorted_by_created_witness :
    List.Sorted createdDesc ((getConversations twoConvStore).map Prod.fst) ∧
    ((getConversations twoConvStore).map Prod.fst).Perm
      twoConvStore.conversations :=
  ⟨(getConversations_sorted_by_created twoConvStore).1,
   (getConversations_sorted_by_created twoConvStore).2.1⟩

/-- Claim C7, counterexample: a model-supplied output-token count of 0 is
present yet overwritten by the estimate — JS `||` treats 0 as falsy, so
`usage.output_tokens || estimateTokens(content)` discards a true count of
zero. -/
theorem responseOutputTokens_overwrites_zero_count :
    (some 0 : Option Nat).isSome = true ∧
    responseOutputTokens (some 0) "done" = 1 ∧
    responseOutputTokens (some 0) "done" ≠ 0 := by
  decide

/-- Claim C7, amended: the fallback estimate is exactly one token per
four characters rounded up (the least `k` with `length ≤ 4k`), a
model-supplied count is preserved whenever it is present and nonzero, and
the estimate is used when no count is supplied; a supplied count of zero,
however, is falsy under JS `||` and is replaced by the estimate. -/
theorem estimateTokens_ratio_and_fallback (usage : Option Nat) (n : Nat)
    (content : String) :
    content.length ≤ 4 * estimateTokens content ∧
    (∀ k, content.length ≤ 4 * k → estimateTokens content ≤ k) ∧
    (usage = some n → n ≠ 0 → responseOutputTokens usage content = n) ∧
    (usage = none →
      responseOutputTokens usage content = estimateTokens content) := by
  refine ⟨?_, ?_, ?_, ?_⟩
  · unfold estimateTokens
    split
    · omega
    · have h1 := Nat.div_add_mod (content.length + 3) 4
      have h2 : (content.length + 3) % 4 < 4 := Nat.mod_lt _ (by omega)
      omega
  · intro k hk
    unfold estimateTokens
    split
    · omega
    · have h1 := Nat.div_add_mod (content.length + 3) 4
      have h2 : (content.length + 3) % 4 < 4 := Nat.mod_lt _ (by omega)
      omega
  · rintro rfl hn
    unfold responseOutputTokens jsOr
    match n, hn with
    | Nat.succ m, _ => rfl
  · rintro rfl
    rfl

/-- Claim C7, amended, witness: a nonzero supplied count of 5 survives;
with no count, `"hello"` (5 characters) is estimated at 2 tokens. -/
theorem estimateTokens_ratio_and_fallback_witness :
    responseOutputTokens (some 5) "hello" = 5 ∧
    responseOutputTokens none "hello" = estimateTokens "hello" ∧
    estimateTokens "hello" = 2 :=
  ⟨(estimateTokens_ratio_and_fallback (some 5) 5 "hello").2.2.1 rfl (by decide),
   (estimateTokens_ratio_and_fallback none 5 "hello").2.2.2 rfl,
   by decide⟩

/-- Claim C8: `logMessage` returns normally on every input — no transport
or server failure ever propagates as an error to the caller — and every
failure is reported on the console diagnostic channel instead. -/
theorem logMessage_never_throws (cid : Option Nat) (t : Transport) :
    (∃ v, (logMessage cid t).1 = Except.ok v) ∧
    (∀ e, logMessageAttempt t = .error e → cid.isSome = true →
      (logMessage cid t).2 =
        ["[MissionBoard] Error logging message: " ++ e]) := by
  constructor
  · cases cid with
    | none => exact ⟨none, rfl⟩
    | some c =>
      cases t with
      | success row => exact ⟨some row, rfl⟩
      | httpErr b => exact ⟨none, rfl⟩
      | netErr m => exact ⟨none, rfl⟩
  · intro e he hsome
    cases cid with
    | none => simp at hsome
    | some c =>
      cases t with
      | success row => exact absurd he (by simp [logMessageAttempt])
      | httpErr b =>
        injection he with h
        simp [logMessage, logMessageAttempt, h]
      | netErr m =>
        injection he with h
        simp [logMessage, logMessageAttempt, h]

/-- Claim C8, witness: a rejected fetch on an active conversation returns
`ok` and reports the failure on the console. -/
theorem logMessage_never_throws_witness :
    (∃ v, (logMessage (some 7) (.netErr "ECONNREFUSED")).1 = Except.ok v) ∧
    (logMessage (some 7) (.netErr "ECONNREFUSED")).2 =
      ["[MissionBoard] Error logging message: ECONNREFUSED"] :=
  ⟨(logMessage_never_throws (some 7) (.netErr "ECONNREFUSED")).1,
   (logMessage_never_throws (some 7) (.netErr "ECONNREFUSED")).2
     "ECONNREFUSED" rfl rfl⟩

/-- Claim C9: the create-conversation handler persists only initiator,
participants, correlation key and metadata from the request body; the
`title` field — which the Logger Client always sends — is discarded, so
the stored row's title is the store's default (NULL) regardless of the
supplied title. -/
theorem postConversations_discards_title (s : Store)
    (body : CreateConversationBody) :
    ((postConversations s body).2).title = none ∧
    ((postConversations s body).2).initiator_agent =
      some body.initiator_agent ∧
    ((postConversations s body).2).participants =
      body.participants.getD [body.initiator_agent] ∧
    ((postConversations s body).2).session_id = body.session_id ∧
    ((postConversations s body).2).metadata = body.metadata ∧
    ∀ initiator parts sess titl meta,
      (startConversationBody initiator parts sess titl meta).title.isSome =
        true :=
  ⟨rfl, rfl, rfl, rfl, rfl, fun _ _ _ _ _ => rfl⟩

/-- Claim C10: the cache key `initiator + ":" + participant + ":" +
sessionKey` is not injective — the distinct triples `("a", "b:c", "s")`
and `("a:b", "c", "s")` collide, and the second `getOrCreateLogger` call
therefore reuses the logger cached by the first. -/
theorem cacheKey_not_injective :
    (("a", "b:c", "s") : String × String × String) ≠ ("a:b", "c", "s") ∧
    cacheKey "a" "b:c" "s" = cacheKey "a:b" "c" "s" ∧
    (getOrCreateLogger (getOrCreateLogger emptyCache "a" "b:c" "s").2
        "a:b" "c" "s").1 =
      (getOrCreateLogger emptyCache "a" "b:c" "s").1 := by
  decide

end MissionBoard
